import Mathlib

/-!
Shallow embedding of the CryptoBots trading scripts (TRADING-BOTS directory).

Each script is a sequential polling loop around a small piece of pure trading
logic: a rolling price buffer, an indicator computation, and a position update
driven by order outcomes.  The network calls (market data fetch, order
submission) are modelled by their observable outcomes: prices are passed in as
rational numbers and each order submission is represented by the Boolean the
script receives from send_trade_order.  Prices and indicator values are
modelled as rationals; where the scripts rely on IEEE special values
(the pandas RSI division), an explicit extended value type is used.
-/

/-- Rolling buffer maintenance shared by the scripts
(DualMovingAverage.py lines 114-118: append then keep the slice from index
length - N; relative_arbitrage.py lines 136-138: append then pop the head;
for a single push past capacity both leave the most recent N elements).
The buffer is the list of pushed values, oldest first. -/
def pushTrim (N : ℕ) (buf : List ℚ) (x : ℚ) : List ℚ :=
  let b := buf ++ [x]
  if N < b.length then b.drop (b.length - N) else b

/-- Runs a whole sequence of pushes on an initially empty buffer, as the
main loops do starting from the empty global history list. -/
def runPushes (N : ℕ) (xs : List ℚ) : List ℚ :=
  xs.foldl (pushTrim N) []

/-- The action a tick of trading logic sets out to perform, read off from the
branch structure of the scripts (entering, exiting plus re-entering, or
nothing). -/
inductive Decision where
  | hold : Decision
  | enterLong : Decision
  | enterShort : Decision
  | flipToLong : Decision
  | flipToShort : Decision
deriving DecidableEq

/-- Mutable state of DualMovingAverage.py: position (0 flat, 1 long,
-1 short), entry_price, cum_profit (lines 46-49). -/
structure DMAState where
  position : Int
  entry_price : Option ℚ
  cum_profit : ℚ
deriving DecidableEq

/-- Trading-logic section of DualMovingAverage.py main (lines 138-175),
one tick.  The argument ord gives the outcome of the n-th order submission
attempted during the tick (the script sends at most two).  Note the flip
branches: on a successful exit order the script credits the trade profit but
never sets position to 0; it only changes position if the second (enter)
order also succeeds. -/
def dmaStep (current_price fast_ma slow_ma : ℚ) (ord : ℕ → Bool)
    (s : DMAState) : DMAState :=
  if fast_ma > slow_ma then
    if s.position = 0 then
      if ord 0 then
        { position := 1, entry_price := some current_price,
          cum_profit := s.cum_profit }
      else s
    else if s.position = -1 then
      if ord 0 then
        let profit := s.entry_price.getD 0 - current_price
        if ord 1 then
          { position := 1, entry_price := some current_price,
            cum_profit := s.cum_profit + profit }
        else
          { s with cum_profit := s.cum_profit + profit }
      else s
    else s
  else
    if s.position = 0 then
      if ord 0 then
        { position := -1, entry_price := some current_price,
          cum_profit := s.cum_profit }
      else s
    else if s.position = 1 then
      if ord 0 then
        let profit := current_price - s.entry_price.getD 0
        if ord 1 then
          { position := -1, entry_price := some current_price,
            cum_profit := s.cum_profit + profit }
        else
          { s with cum_profit := s.cum_profit + profit }
      else s
    else s

/-- The decision the DualMovingAverage.py trading logic (lines 138-175)
attempts on a tick, as a function of the two moving averages and the current
position.  The script branches on fast_ma > slow_ma; everything else,
equality included, falls into the bearish else branch. -/
def dmaDecide (fast_ma slow_ma : ℚ) (position : Int) : Decision :=
  if fast_ma > slow_ma then
    if position = 0 then .enterLong
    else if position = -1 then .flipToLong
    else .hold
  else
    if position = 0 then .enterShort
    else if position = 1 then .flipToShort
    else .hold

/-- Mutable state of spread_bot.py: position (0 none, 1 long spread,
-1 short spread), entry_BTC, entry_ETH, entry_spread, cum_profit
(lines 59-63). -/
structure SpreadState where
  position : Int
  entry_BTC : Option ℚ
  entry_ETH : Option ℚ
  entry_spread : Option ℚ
  cum_profit : ℚ
deriving DecidableEq

/-- The aggregate condition spread_bot.py tests on a two-leg action
(lines 198, 209, 224, 236): order1 and order2. -/
def spreadAggregate (order1 order2 : Bool) : Bool :=
  order1 && order2

/-- Trading-logic section of spread_bot.py main (lines 168-240), one tick.
The rolling mean and the two bounds are the local variables computed just
before this block; order1 and order2 are the outcomes of the two leg
submissions the script makes when it acts.  Note the exit branches: the
trade profit is added to cum_profit before the exit orders are sent, and
the position is cleared only if both legs succeed. -/
def spreadTradeStep (beta BTC_close ETH_close rolling_mean upper_bound lower_bound : ℚ)
    (order1 order2 : Bool) (s : SpreadState) : SpreadState :=
  let current_spread := ETH_close - beta * BTC_close
  if s.position = 0 then
    if current_spread > upper_bound then
      if spreadAggregate order1 order2 then
        { position := -1, entry_spread := some current_spread,
          entry_BTC := some BTC_close, entry_ETH := some ETH_close,
          cum_profit := s.cum_profit }
      else s
    else if current_spread < lower_bound then
      if spreadAggregate order1 order2 then
        { position := 1, entry_spread := some current_spread,
          entry_BTC := some BTC_close, entry_ETH := some ETH_close,
          cum_profit := s.cum_profit }
      else s
    else s
  else
    if s.position = 1 ∧ current_spread ≥ rolling_mean then
      let profit_trade :=
        (ETH_close - s.entry_ETH.getD 0) - beta * (BTC_close - s.entry_BTC.getD 0)
      let s1 := { s with cum_profit := s.cum_profit + profit_trade }
      if spreadAggregate order1 order2 then
        { s1 with position := 0, entry_spread := none,
                  entry_BTC := none, entry_ETH := none }
      else s1
    else if s.position = -1 ∧ current_spread ≤ rolling_mean then
      let profit_trade :=
        beta * (BTC_close - s.entry_BTC.getD 0) - (ETH_close - s.entry_ETH.getD 0)
      let s1 := { s with cum_profit := s.cum_profit + profit_trade }
      if spreadAggregate order1 order2 then
        { s1 with position := 0, entry_spread := none,
                  entry_BTC := none, entry_ETH := none }
      else s1
    else s

/-- Mutable state of rsi_strategy.py: position, entry_price, profit
(lines 52-54). -/
structure RSIState where
  position : Int
  entry_price : Option ℚ
  profit : ℚ
deriving DecidableEq

/-- Trading-logic section of evaluate_RSI in rsi_strategy.py
(lines 153-178), one tick.  The argument ord is the Boolean returned by
send_trade_order; the script calls send_trade_order after already mutating
position and entry_price and never inspects the returned Boolean, which is
why ord does not appear on any right-hand side. -/
def rsiTradeStep (current_rsi current_price : ℚ) (ord : Bool)
    (s : RSIState) : RSIState :=
  if s.position = 0 then
    if current_rsi < 30 then
      { position := 1, entry_price := some current_price, profit := s.profit }
    else if current_rsi > 70 then
      { position := -1, entry_price := some current_price, profit := s.profit }
    else s
  else
    if s.position = 1 ∧ current_rsi > 50 then
      { position := 0, entry_price := none,
        profit := s.profit + (current_price - s.entry_price.getD 0) }
    else if s.position = -1 ∧ current_rsi < 50 then
      { position := 0, entry_price := none,
        profit := s.profit + (s.entry_price.getD 0 - current_price) }
    else s

/-- Extended value type for the floating-point arithmetic of compute_RSI in
rsi_strategy.py: the pandas computation is exact rational arithmetic except
that dividing a nonzero value by zero yields a signed infinity and dividing
zero by zero yields a not-a-number, both of which then flow through the
remaining operations by the usual IEEE rules. -/
inductive FloatVal where
  | fin : ℚ → FloatVal
  | pinf : FloatVal
  | ninf : FloatVal
  | nan : FloatVal
deriving DecidableEq

/-- IEEE negation on extended values. -/
def fneg : FloatVal → FloatVal
  | .fin q => .fin (-q)
  | .pinf => .ninf
  | .ninf => .pinf
  | .nan => .nan

/-- IEEE addition on extended values (opposite infinities and any
not-a-number operand give not-a-number). -/
def fadd : FloatVal → FloatVal → FloatVal
  | .fin a, .fin b => .fin (a + b)
  | .fin _, .pinf => .pinf
  | .fin _, .ninf => .ninf
  | .pinf, .fin _ => .pinf
  | .ninf, .fin _ => .ninf
  | .pinf, .pinf => .pinf
  | .ninf, .ninf => .ninf
  | _, _ => .nan

/-- IEEE subtraction on extended values. -/
def fsub (a b : FloatVal) : FloatVal :=
  fadd a (fneg b)

/-- IEEE division on extended values (finite nonzero over zero is a signed
infinity, zero over zero is not-a-number, finite over infinite is zero,
infinite over infinite or any not-a-number operand is not-a-number). -/
def fdiv : FloatVal → FloatVal → FloatVal
  | .fin a, .fin b =>
      if b = 0 then
        if a = 0 then .nan else if 0 < a then .pinf else .ninf
      else .fin (a / b)
  | .fin _, .pinf => .fin 0
  | .fin _, .ninf => .fin 0
  | .pinf, .fin b => if 0 ≤ b then .pinf else .ninf
  | .ninf, .fin b => if 0 ≤ b then .ninf else .pinf
  | _, _ => .nan

/-- compute_RSI from rsi_strategy.py (lines 61-73), evaluated at the last
index of the series as evaluate_RSI does (line 147).  series.diff gives the
consecutive differences (its leading not-a-number entry never lies inside
the final rolling window used here); the rolling means of the clipped gains
and losses over the final window of the given period are exact rational
averages; the quotient rs = avg_gain / avg_loss and the final expression
100 - 100 / (1 + rs) follow the floating-point rules of FloatVal. -/
def compute_RSI (series : List ℚ) (period : ℕ) : FloatVal :=
  let delta := List.zipWith (fun a b => b - a) series series.tail
  let window := delta.drop (delta.length - period)
  let avg_gain := (window.map (fun d => max d 0)).sum / (period : ℚ)
  let avg_loss := (window.map (fun d => max (-d) 0)).sum / (period : ℚ)
  let rs := fdiv (.fin avg_gain) (.fin avg_loss)
  fsub (.fin 100) (fdiv (.fin 100) (fadd (.fin 1) rs))

/-- Mutable state of momentum_bot.py: position, entry_price, profit
(lines 54-60). -/
structure MomState where
  position : Int
  entry_price : Option ℚ
  profit : ℚ
deriving DecidableEq

/-- TRADE_AMOUNT of momentum_bot.py line 32 (0.01 BTC per order). -/
def TRADE_AMOUNT : ℚ := 1 / 100

/-- Trading-logic section of evaluate_trading_signal in momentum_bot.py
(lines 139-164), one tick, with THRESHOLD = 50 (line 44).  The argument ord
is the Boolean returned by send_trade_order; this script does check it
before mutating its state.  The profit credited on exit is the raw price
difference; TRADE_AMOUNT appears only in the order payload. -/
def evaluate_trading_signal (momentum current_price : ℚ) (ord : Bool)
    (s : MomState) : MomState :=
  if s.position = 0 then
    if momentum > 50 then
      if ord then
        { position := 1, entry_price := some current_price, profit := s.profit }
      else s
    else if momentum < -50 then
      if ord then
        { position := -1, entry_price := some current_price, profit := s.profit }
      else s
    else s
  else
    if s.position = 1 ∧ momentum < 0 then
      if ord then
        { position := 0, entry_price := none,
          profit := s.profit + (current_price - s.entry_price.getD 0) }
      else s
    else if s.position = -1 ∧ momentum > 0 then
      if ord then
        { position := 0, entry_price := none,
          profit := s.profit + (s.entry_price.getD 0 - current_price) }
      else s
    else s

/-- The value update of update_Q in Reinforcement_bot.py (line 163):
v + alpha * (reward + gamma * max_next - v), specialised as in the claim to
the self-consistent case max_next = v (the updated entry is itself the
maximal value of the next state). -/
def update_Q (alpha gamma reward v : ℚ) : ℚ :=
  v + alpha * (reward + gamma * v - v)

/-- Mutable state of GNN_1.py: in_position and entry_price (lines 57-58). -/
structure GNNState where
  in_position : Bool
  entry_price : Option ℚ
deriving DecidableEq

/-- Decision handling of GNN_1.py main (lines 171-193), one tick.
decision is the arg-max of the network outputs (0 hold, 1 buy, 2 sell);
ord is the Boolean returned by send_trade_order.  The returned Boolean
records whether an order was submitted this tick: a buy signal while in
position and a sell signal without a position are ignored without touching
the API or the state. -/
def gnnStep (decision : ℕ) (ord : Bool) (current_close : ℚ)
    (s : GNNState) : GNNState × Bool :=
  if decision = 1 then
    if s.in_position = false then
      if ord then ({ in_position := true, entry_price := some current_close }, true)
      else (s, true)
    else (s, false)
  else if decision = 2 then
    if s.in_position = true then
      if ord then ({ in_position := false, entry_price := none }, true)
      else (s, true)
    else (s, false)
  else (s, false)

/-- Runs the GNN_1.py loop from its initial state (in_position = False,
entry_price = None) over a list of ticks, each tick being the decision, the
order outcome, and the current close price. -/
def gnnRun (ticks : List (ℕ × Bool × ℚ)) : GNNState :=
  ticks.foldl (fun s t => (gnnStep t.1 t.2.1 t.2.2 s).1) ⟨false, none⟩

/-- Consistency of the GNN_1.py state: the entry price is set exactly when a
position is open. -/
def gnnConsistent (s : GNNState) : Prop :=
  s.in_position = true ↔ s.entry_price ≠ none

/-- A single pushTrim never produces a buffer longer than the capacity,
provided the incoming buffer already respects it or the trim fires. -/
theorem pushTrim_length_le (N : ℕ) (buf : List ℚ) (x : ℚ)
    (h : buf.length ≤ N) : (pushTrim N buf x).length ≤ N := by
  unfold pushTrim
  simp only
  split
  · simp only [List.length_drop]
    omega
  · simp only [List.length_append, List.length_cons, List.length_nil] at *
    omega

/-- pushTrim maps the suffix view of the pushed-so-far sequence to the
suffix view of the extended sequence. -/
theorem pushTrim_drop (N : ℕ) (hN : 1 ≤ N) (ys : List ℚ) (x : ℚ) :
    pushTrim N (ys.drop (ys.length - N)) x
      = (ys ++ [x]).drop ((ys ++ [x]).length - N) := by
  unfold pushTrim
  simp only [List.length_append, List.length_cons, List.length_nil,
    List.length_drop]
  by_cases hk : ys.length + 1 ≤ N
  · have h0 : ys.length - N = 0 := by omega
    have h1 : ys.length + (0 + 1) - N = 0 := by omega
    rw [h0, h1, List.drop_zero, List.drop_zero]
    rw [if_neg (by omega)]
  · have hNk : N ≤ ys.length := by omega
    rw [if_pos (by omega)]
    have hlen : ys.length - (ys.length - N) + 1 - N = 1 := by omega
    rw [hlen]
    rw [List.drop_append_eq_append_drop]
    rw [List.drop_append_eq_append_drop]
    rw [List.drop_drop]
    congr 1
    · congr 1
      omega
    · congr 1
      simp only [List.length_drop]
      omega

/-- Folding pushTrim over further pushes keeps the buffer equal to the
suffix of the whole pushed sequence. -/
theorem foldl_pushTrim (N : ℕ) (hN : 1 ≤ N) :
    ∀ (xs ys : List ℚ),
      xs.foldl (pushTrim N) (ys.drop (ys.length - N))
        = (ys ++ xs).drop ((ys ++ xs).length - N) := by
  intro xs
  induction xs with
  | nil => intro ys; simp
  | cons x xs ih =>
      intro ys
      rw [List.foldl_cons, pushTrim_drop N hN ys x, ih (ys ++ [x])]
      simp [List.append_assoc]

/-- Claim C8 — rolling buffer invariant: for every capacity at least 1, a
push never leaves more than N elements in the buffer, and a whole sequence
of pushes starting from the empty buffer leaves exactly the most recent
min(length, N) pushed values in arrival order (the suffix of the pushed
sequence); with capacity 3, pushing 10, 20, 30, 40 leaves [20, 30, 40]. -/
theorem c8_rolling_buffer (N : ℕ) (hN : 1 ≤ N) :
    (∀ (buf : List ℚ) (x : ℚ), buf.length ≤ N →
        (pushTrim N buf x).length ≤ N) ∧
    (∀ xs : List ℚ, runPushes N xs = xs.drop (xs.length - N)) := by
  constructor
  · exact fun buf x h => pushTrim_length_le N buf x h
  · intro xs
    have h := foldl_pushTrim N hN xs []
    simpa [runPushes] using h

/-- Witness for C8 at capacity 3 with pushes 10, 20, 30, 40. -/
theorem c8_rolling_buffer_witness :
    1 ≤ 3 ∧ runPushes 3 [10, 20, 30, 40] = [20, 30, 40] :=
  ⟨by decide,
    ((c8_rolling_buffer 3 (by decide)).2 [10, 20, 30, 40]).trans (by decide)⟩

/-- One step of the self-consistent value update moves the error towards the
fixed point by the factor 1 - alpha * (1 - gamma). -/
theorem update_Q_error_step (alpha gamma reward v : ℚ) (hγ : gamma ≠ 1) :
    update_Q alpha gamma reward v - reward / (1 - gamma)
      = (1 - alpha * (1 - gamma)) * (v - reward / (1 - gamma)) := by
  have h1 : (1 : ℚ) - gamma ≠ 0 := fun h => hγ (by linarith [h])
  unfold update_Q
  field_simp
  ring

/-- Claim C9 — Q-update fixed point: with learning rate alpha in (0, 1] and
discount gamma < 1, the self-consistent tabular update
v + alpha * (reward + gamma * v - v) of Reinforcement_bot.py has
reward / (1 - gamma) as its unique fixed point, and after n repetitions the
distance to that fixed point is scaled by (1 - alpha * (1 - gamma)) ^ n. -/
theorem c9_q_update (alpha gamma reward : ℚ)
    (hα0 : 0 < alpha) (hα1 : alpha ≤ 1) (hγ : gamma < 1) :
    (∀ v, update_Q alpha gamma reward v = v ↔ v = reward / (1 - gamma)) ∧
    (∀ v n, (update_Q alpha gamma reward)^[n] v - reward / (1 - gamma)
        = (1 - alpha * (1 - gamma)) ^ n * (v - reward / (1 - gamma))) := by
  have h1 : (1 : ℚ) - gamma ≠ 0 := by intro h; linarith
  constructor
  · intro v
    constructor
    · intro hfix
      unfold update_Q at hfix
      have h2 : alpha * (reward + gamma * v - v) = 0 := by linarith
      have h3 : reward + gamma * v - v = 0 := by
        rcases mul_eq_zero.mp h2 with h | h
        · exact absurd h (ne_of_gt hα0)
        · exact h
      field_simp
      linarith
    · intro hv
      subst hv
      unfold update_Q
      field_simp
      ring
  · intro v n
    induction n with
    | zero => simp
    | succ n ih =>
        rw [Function.iterate_succ_apply',
          update_Q_error_step alpha gamma reward _ (by intro h; linarith),
          ih, pow_succ]
        ring

/-- Witness for C9 at the hyperparameters of Reinforcement_bot.py
(alpha = 0.1, gamma = 0.99) with constant reward 1: the fixed point is
1 / (1 - 0.99) = 100. -/
theorem c9_q_update_witness :
    update_Q (1 / 10) (99 / 100) 1 100 = 100 :=
  ((c9_q_update (1 / 10) (99 / 100) 1 (by norm_num) (by norm_num)
      (by norm_num)).1 100).2 (by norm_num)

/-- If the GNN_1.py state is consistent, it remains so after one tick of the
decision handling. -/
theorem gnnStep_consistent (d : ℕ) (o : Bool) (p : ℚ) (s : GNNState)
    (h : gnnConsistent s) : gnnConsistent (gnnStep d o p s).1 := by
  unfold gnnStep
  split
  · split
    · split
      · simp [gnnConsistent]
      · exact h
    · exact h
  · split
    · split
      · split
        · simp [gnnConsistent]
        · exact h
      · exact h
    · exact h

/-- Consistency holds along any run of GNN_1.py ticks from any consistent
start. -/
theorem gnnFoldl_consistent (ticks : List (ℕ × Bool × ℚ)) :
    ∀ s : GNNState, gnnConsistent s →
      gnnConsistent (ticks.foldl (fun s t => (gnnStep t.1 t.2.1 t.2.2 s).1) s) := by
  induction ticks with
  | nil => intro s h; exact h
  | cons t ticks ih =>
      intro s h
      exact ih _ (gnnStep_consistent t.1 t.2.1 t.2.2 s h)

/-- Claim C10 — the learned-policy bot is long-only: a buy decision while a
position is open and a sell decision without a position submit no order and
leave the state unchanged, and along every run from the initial state the
entry price is set exactly when a position is open (the position itself is
a Boolean in the source, so it is only ever flat or long, never short). -/
theorem c10_gnn_long_only :
    (∀ (s : GNNState) (o : Bool) (p : ℚ), s.in_position = true →
        gnnStep 1 o p s = (s, false)) ∧
    (∀ (s : GNNState) (o : Bool) (p : ℚ), s.in_position = false →
        gnnStep 2 o p s = (s, false)) ∧
    (∀ ticks : List (ℕ × Bool × ℚ), gnnConsistent (gnnRun ticks)) := by
  refine ⟨?_, ?_, ?_⟩
  · intro s o p h
    unfold gnnStep
    rw [if_pos rfl, if_neg (by simp [h])]
  · intro s o p h
    unfold gnnStep
    rw [if_neg (by omega), if_pos rfl, if_neg (by simp [h])]
  · intro ticks
    exact gnnFoldl_consistent ticks ⟨false, none⟩ (by simp [gnnConsistent])

/-- Witness for C10: with an open position at entry price 10, a buy decision
is ignored without an order; with no position, a sell decision is ignored
without an order. -/
theorem c10_gnn_long_only_witness :
    gnnStep 1 true 50 ⟨true, some 10⟩ = (⟨true, some 10⟩, false) ∧
    gnnStep 2 true 50 ⟨false, none⟩ = (⟨false, none⟩, false) :=
  ⟨c10_gnn_long_only.1 ⟨true, some 10⟩ true 50 rfl,
   c10_gnn_long_only.2.1 ⟨false, none⟩ true 50 rfl⟩

/-- Claim C1 — flip atomicity fails in the code: starting Short at entry
price 100 with a bullish crossover (fast 110 over slow 100) at price 105,
the first buy order (the exit leg) succeeds — the short profit
100 - 105 = -5 is credited — and the second buy order (the enter leg)
fails; DualMovingAverage.py then ends the tick still in position -1 with
the stale entry price, not in the flat state 0 required by the claim. -/
theorem c1_flip_exit_ok_enter_fails :
    dmaStep 105 110 100 (fun n => n == 0)
        { position := -1, entry_price := some 100, cum_profit := 0 }
      = { position := -1, entry_price := some 100, cum_profit := -5 } := by
  norm_num [dmaStep]

/-- Claim C3 — enter atomicity fails in the code: from the flat state with
RSI 25 (below the 30 entry threshold) at price 100, rsi_strategy.py sets
position to 1 and records the entry price whatever the trade order returns
(the Boolean result of send_trade_order is ignored), instead of remaining
flat when the order fails. -/
theorem c3_rsi_enter_ignores_order_result :
    ∀ ord : Bool,
      rsiTradeStep 25 100 ord { position := 0, entry_price := none, profit := 0 }
        = { position := 1, entry_price := some 100, profit := 0 } := by
  decide

/-- Claim C4 — exit crediting is not atomic in the code: holding a long
spread (entry ETH 110, entry BTC 100) with beta 1, prices BTC 100 and
ETH 112 give spread 12 at or above the rolling mean 10, so spread_bot.py
credits the trade profit 2 to cum_profit before sending the exit legs; when
both legs fail the position stays open with the credit retained, and a
retried exit on an identical tick credits the same trade again, reaching 4. -/
theorem c4_exit_credits_before_orders :
    (spreadTradeStep 1 100 112 10 15 5 false false
        { position := 1, entry_BTC := some 100, entry_ETH := some 110,
          entry_spread := some 5, cum_profit := 0 }
      = { position := 1, entry_BTC := some 100, entry_ETH := some 110,
          entry_spread := some 5, cum_profit := 2 }) ∧
    (spreadTradeStep 1 100 112 10 15 5 false false
        { position := 1, entry_BTC := some 100, entry_ETH := some 110,
          entry_spread := some 5, cum_profit := 2 }
      = { position := 1, entry_BTC := some 100, entry_ETH := some 110,
          entry_spread := some 5, cum_profit := 4 }) := by
  constructor <;> norm_num [spreadTradeStep, spreadAggregate]

/-- Claim C2 counterexample — the code reports no distinct partial-fill
outcome: on a short-spread entry signal (spread 20 above the upper bound
15) from the flat state, the tick in which leg one succeeds and leg two
fails is observationally identical to the tick in which both legs fail —
the aggregate condition the script tests is the bare conjunction and the
state is unchanged either way — so the aggregate result is an
undifferentiated failure, not a distinct PartialFill naming the filled
leg. -/
theorem c2_no_distinct_partial_fill :
    spreadAggregate true false = spreadAggregate false false ∧
    spreadTradeStep 1 100 120 10 15 5 true false
        { position := 0, entry_BTC := none, entry_ETH := none,
          entry_spread := none, cum_profit := 0 }
      = spreadTradeStep 1 100 120 10 15 5 false false
          { position := 0, entry_BTC := none, entry_ETH := none,
            entry_spread := none, cum_profit := 0 } := by
  refine ⟨rfl, ?_⟩
  norm_num [spreadTradeStep, spreadAggregate]

/-- Claim C2 as amended — when any leg of a multi-leg enter fails, the
position does remain flat and no entry state is recorded (the whole state
is unchanged), but the only aggregate the code forms is the conjunction of
the leg outcomes, so a partial fill is not reported distinctly from a total
failure. -/
theorem c2_partial_enter_leaves_flat
    (beta BTC_close ETH_close rolling_mean upper_bound lower_bound : ℚ)
    (order1 order2 : Bool) (s : SpreadState)
    (hs : s.position = 0) (ho : spreadAggregate order1 order2 = false) :
    spreadTradeStep beta BTC_close ETH_close rolling_mean upper_bound
      lower_bound order1 order2 s = s := by
  simp [spreadTradeStep, hs, ho]

/-- Witness for the amended C2: a short-spread entry signal with leg one
filled and leg two failed leaves the flat state untouched. -/
theorem c2_partial_enter_leaves_flat_witness :
    spreadTradeStep 1 100 120 10 15 5 true false
        { position := 0, entry_BTC := none, entry_ETH := none,
          entry_spread := none, cum_profit := 0 }
      = { position := 0, entry_BTC := none, entry_ETH := none,
          entry_spread := none, cum_profit := 0 } :=
  c2_partial_enter_leaves_flat 1 100 120 10 15 5 true false _ rfl rfl

/-- Claim C5 counterexample — the accountant is credited the raw price
difference, not the price difference times the trade size: entering long at
100 (momentum 60 over the threshold) and exiting at 110 (momentum -1)
credits exactly 10 to profit, whereas the claim with the trade size
TRADE_AMOUNT = 0.01 of momentum_bot.py would require the credit
(110 - 100) * TRADE_AMOUNT = 0.1. -/
theorem c5_profit_not_times_size :
    (evaluate_trading_signal (-1) 110 true
        (evaluate_trading_signal 60 100 true
          { position := 0, entry_price := none, profit := 0 })).profit = 10 ∧
    (10 : ℚ) ≠ (110 - 100) * TRADE_AMOUNT := by
  constructor
  · norm_num [evaluate_trading_signal]
  · norm_num [TRADE_AMOUNT]

/-- Claim C5 as amended — realized-profit round-trip per unit: from any
flat state, entering long at price P1 (momentum above the threshold 50) and
exiting at price P2 (momentum negative) credits exactly P2 - P1 to the
accountant, and entering short at P1 (momentum below -50) and exiting at P2
(momentum positive) credits exactly P1 - P2; the trade size 0.01 appears
only in the order payload and never scales the credit. -/
theorem c5_round_trip_per_unit (P1 P2 m1 m2 m3 m4 : ℚ) (s : MomState)
    (hs : s.position = 0) (h1 : m1 > 50) (h2 : m2 < 0)
    (h3 : m3 < -50) (h4 : m4 > 0) :
    (evaluate_trading_signal m2 P2 true
        (evaluate_trading_signal m1 P1 true s)).profit
      = s.profit + (P2 - P1) ∧
    (evaluate_trading_signal m4 P2 true
        (evaluate_trading_signal m3 P1 true s)).profit
      = s.profit + (P1 - P2) := by
  have hnot1 : ¬ m3 > 50 := by linarith
  constructor
  · rw [show evaluate_trading_signal m1 P1 true s
        = { position := 1, entry_price := some P1, profit := s.profit } by
      simp [evaluate_trading_signal, hs, h1]]
    simp [evaluate_trading_signal, h2]
  · rw [show evaluate_trading_signal m3 P1 true s
        = { position := -1, entry_price := some P1, profit := s.profit } by
      simp [evaluate_trading_signal, hs, hnot1, h3]]
    simp [evaluate_trading_signal, h4]

/-- Witness for the amended C5: a long round trip from 100 to 110 credits
10, and a short round trip from 100 to 110 credits -10. -/
theorem c5_round_trip_per_unit_witness :
    (evaluate_trading_signal (-1) 110 true
        (evaluate_trading_signal 60 100 true
          { position := 0, entry_price := none, profit := 0 })).profit
      = 0 + (110 - 100) ∧
    (evaluate_trading_signal 1 110 true
        (evaluate_trading_signal (-60) 100 true
          { position := 0, entry_price := none, profit := 0 })).profit
      = 0 + (100 - 110) :=
  c5_round_trip_per_unit 100 110 60 (-1) (-60) 1
    { position := 0, entry_price := none, profit := 0 }
    rfl (by norm_num) (by norm_num) (by norm_num) (by norm_num)

/-- Claim C6 counterexample — equality of the moving averages is not a
hold: with fast and slow both 100 and a flat position,
DualMovingAverage.py falls into its bearish else branch and attempts a
short entry. -/
theorem c6_equality_not_hold :
    dmaDecide 100 100 0 = Decision.enterShort ∧
    Decision.enterShort ≠ Decision.hold := by
  constructor
  · norm_num [dmaDecide]
  · decide

/-- Claim C6 as amended — crossover decision rule of the code: enter long
exactly when the fast average exceeds the slow one while flat; flip to long
exactly when it exceeds while short; in every other case, equality of the
averages included, the bearish branch runs: enter short exactly when the
fast average does not exceed the slow one while flat, flip to short exactly
when it does not exceed while long, and hold otherwise; in particular with
equal averages the decision is enter short when flat, flip to short when
long, and hold only when already short. -/
theorem c6_crossover_rule (fast_ma slow_ma : ℚ) (p : Int) :
    (dmaDecide fast_ma slow_ma p = .enterLong ↔ fast_ma > slow_ma ∧ p = 0) ∧
    (dmaDecide fast_ma slow_ma p = .flipToLong ↔ fast_ma > slow_ma ∧ p = -1) ∧
    (dmaDecide fast_ma slow_ma p = .enterShort ↔ ¬ fast_ma > slow_ma ∧ p = 0) ∧
    (dmaDecide fast_ma slow_ma p = .flipToShort ↔ ¬ fast_ma > slow_ma ∧ p = 1) ∧
    (dmaDecide fast_ma fast_ma p
      = if p = 0 then .enterShort else if p = 1 then .flipToShort else .hold) := by
  unfold dmaDecide
  by_cases hf : fast_ma > slow_ma <;>
    by_cases hp0 : p = 0 <;>
    by_cases hp1 : p = 1 <;>
    by_cases hpm : p = -1 <;>
      simp_all <;> rw [if_neg (not_lt.mpr hf)] <;> simp

/-- Every consecutive difference of a strictly increasing series is
positive. -/
theorem diffs_pos : ∀ (l : List ℚ), l.Chain' (· < ·) →
    ∀ d ∈ List.zipWith (fun a b => b - a) l l.tail, 0 < d
  | [], _, d, hd => by simp at hd
  | [a], _, d, hd => by simp at hd
  | a :: b :: t, h, d, hd => by
      rw [List.chain'_cons] at h
      simp only [List.tail_cons, List.zipWith_cons_cons, List.mem_cons] at hd
      rcases hd with h1 | h2
      · subst h1; linarith [h.1]
      · exact diffs_pos (b :: t) h.2 d (by simpa using h2)

/-- Claim C7 — RSI zero-loss totality: on any strictly increasing price
series of at least period + 1 values (period at least 1), compute_RSI of
rsi_strategy.py evaluates to the finite value 100 — the all-gains window
makes the average loss exactly zero, the quotient rs becomes positive
infinity in the floating-point arithmetic, and 100 - 100 / (1 + rs)
collapses to 100 rather than to a division error or a not-a-number. -/
theorem c7_rsi (series : List ℚ) (period : ℕ) (hp : 1 ≤ period)
    (hlen : period + 1 ≤ series.length) (hmono : series.Chain' (· < ·)) :
    compute_RSI series period = .fin 100 := by
  simp only [compute_RSI]
  set ds := List.zipWith (fun a b => b - a) series series.tail with hds
  set w := ds.drop (ds.length - period) with hw
  have hdpos : ∀ d ∈ ds, 0 < d := fun d hd => diffs_pos series hmono d hd
  have hdlen : ds.length = series.length - 1 := by
    rw [hds]; simp [List.length_zipWith, List.length_tail]
  have hwpos : ∀ d ∈ w, 0 < d := fun d hd => hdpos d (List.mem_of_mem_drop hd)
  have hwlen : w.length = period := by rw [hw]; simp [List.length_drop]; omega
  have hwne : w ≠ [] := by
    intro h; rw [h] at hwlen; simp at hwlen; omega
  have hloss : (w.map (fun d => max (-d) 0)).sum = 0 := by
    apply List.sum_eq_zero
    intro x hx
    simp only [List.mem_map] at hx
    obtain ⟨d, hd, rfl⟩ := hx
    have hdp := hwpos d hd
    have : -d ≤ 0 := by linarith
    simp [max_eq_right this]
  have hgain : 0 < (w.map (fun d => max d 0)).sum := by
    apply List.sum_pos
    · intro x hx
      simp only [List.mem_map] at hx
      obtain ⟨d, hd, rfl⟩ := hx
      have hdp := hwpos d hd
      exact lt_max_of_lt_left hdp
    · simpa using hwne
  have hper : (0:ℚ) < (period : ℚ) := by
    have : 0 < period := hp
    exact_mod_cast this
  have hag : 0 < (w.map (fun d => max d 0)).sum / (period : ℚ) :=
    div_pos hgain hper
  have hal : (w.map (fun d => max (-d) 0)).sum / (period : ℚ) = 0 := by
    rw [hloss]; simp
  rw [hal]
  rw [show fdiv (FloatVal.fin ((w.map (fun d => max d 0)).sum / (period : ℚ)))
        (FloatVal.fin 0) = FloatVal.pinf by
    simp [fdiv, hag.ne', hag]]
  simp [fadd, fdiv, fsub, fneg]

/-- Witness for C7: the strictly increasing series 1, 2, ..., 15 with the
period 14 used by rsi_strategy.py yields RSI exactly 100. -/
theorem c7_rsi_witness :
    compute_RSI [1, 2, 3, 4, 5, 6, 7, 8, 9, 10, 11, 12, 13, 14, 15] 14
      = .fin 100 :=
  c7_rsi [1, 2, 3, 4, 5, 6, 7, 8, 9, 10, 11, 12, 13, 14, 15] 14
    (by decide) (by decide)
    (by norm_num [List.chain'_cons, List.chain'_singleton])
